import Mathlib

/-
  Verification of the zephyr schema-validation core (src/zephyr/types.py).

  Embedding conventions:
  * Python values are modelled by the inductive `Value`.  The MISSING sentinel
    and Python `None` are distinct constructors; a plain object carrying
    attributes (the source side of `Object.dump`) is `Value.record`.
  * Each type-descriptor instance is embedded as its `load` / `dump`
    functions; a composite descriptor class becomes a combinator taking the
    child descriptors' functions, mirroring how the Python classes hold child
    `Type` instances.  Instances are modelled with the default error-message
    templates and no extra validators, so the base `Type.load` / `Type.dump`
    steps (`super().load(...)` etc.) are the identity.
  * Fallible code returns `Except PyErr Value`.  `PyErr.validation` is
    `zephyr.errors.ValidationError`; the other constructors are the ordinary
    Python exceptions that the source can raise (attribute lookup failure,
    reference to an undefined local name, `ValueError`).
  * `zephyr.errors`, `zephyr.utils` and `zephyr.compat` are imported by
    types.py but are not part of the sources; they are modelled from the
    spec where marked.
-/

namespace Zephyr

/-- A Python value as seen by the library: the MISSING sentinel, `None`,
booleans, integers, strings, lists, dicts (assoc lists in insertion order)
and plain objects with named attributes. -/
inductive Value where
  | missing
  | null
  | int (n : Int)
  | bool (b : Bool)
  | str (s : String)
  | list (items : List Value)
  | dict (entries : List (String × Value))
  | record (attrs : List (String × Value))

/-- A key of the structured error tree: a numeric index (List/Tuple
aggregation) or a field/dict key name. -/
inductive EKey where
  | idx (i : Nat)
  | name (k : String)
deriving DecidableEq

/-- Modelled from the spec: the structured validation-failure carrier of
`zephyr.errors` "holds either a single message or a nested mapping of
sub-messages", forming a tree mirroring the schema's shape. -/
inductive Messages where
  | msg (text : String)
  | tree (entries : List (EKey × Messages))

/-- The exceptions the embedded code can raise.  `validation` is
`zephyr.errors.ValidationError` (modelled from the spec); the others are the
host-language exceptions that escape from the source's defects or from
schema-authoring errors. -/
inductive PyErr where
  | validation (messages : Messages)
  | attributeError (attr : String)
  | nameError (var : String)
  | valueError (text : String)

/-- The load/dump signature every descriptor instance exposes. -/
abbrev LoadFn := Value → Except PyErr Value

/-- Default template for kind `required`: `'Value is required'`. -/
def requiredError : PyErr := .validation (.msg "Value is required")

/-- Default template for kind `invalid_type`, formatted with its `expected`
parameter: `'Value should be {expected}'`. -/
def invalidTypeError (expected : String) : PyErr :=
  .validation (.msg ("Value should be " ++ expected))

/-- Tuple's template for kind `invalid_length`, formatted with
`expected_length`: `'Value length should be {expected_length}'`. -/
def invalidLengthError (expected_length : Nat) : PyErr :=
  .validation (.msg ("Value length should be " ++ toString expected_length))

/-- The check `data is MISSING or data is None` shared by every load/dump. -/
def isAbsent : Value → Bool
  | .missing => true
  | .null => true
  | _ => false

/-- Modelled from the spec: `zephyr.compat.int_types` membership.  The spec's
external-interface section notes that booleans are a subtype of integer in
the host representation, so `isinstance(data, int_types)` accepts booleans as
well as integers. -/
def isIntInstance : Value → Bool
  | .int _ => true
  | .bool _ => true
  | _ => false

/-- Modelled from the spec: `zephyr.compat.string_types` membership. -/
def isStringInstance : Value → Bool
  | .str _ => true
  | _ => false

/-- The check `isinstance(data, bool)` used by `Boolean`: only actual
booleans pass, integers are rejected. -/
def isBoolInstance : Value → Bool
  | .bool _ => true
  | _ => false

/-- Modelled from the spec: `zephyr.utils.is_list`, the primitive-kind
classifier for list-like sequences. -/
def is_list : Value → Bool
  | .list _ => true
  | _ => false

/-- Modelled from the spec: `zephyr.utils.is_dict`, the primitive-kind
classifier for mappings. -/
def is_dict : Value → Bool
  | .dict _ => true
  | _ => false

/-- The identity test `loaded != MISSING` against the sentinel. -/
def Value.isMissing : Value → Bool
  | .missing => true
  | _ => false

/-- `Type.validate`: attempt `load`; a `ValidationError` is converted to its
message tree, success yields the empty mapping.  Only `ValidationError` is
caught, so any other exception raised by `load` escapes. -/
def validate (load : LoadFn) (data : Value) : Except PyErr Messages :=
  match load data with
  | .ok _ => .ok (.tree [])
  | .error (.validation messages) => .ok messages
  | .error e => .error e

/-- `Any.load` is the base `Type.load` with no extra validators: it returns
the data unchanged. -/
def Any.load : LoadFn := fun data => .ok data

/-- `Any.dump` is the base `Type.dump`: identity. -/
def Any.dump : LoadFn := fun value => .ok value

/-- `Integer.load`: required/None check, then `isinstance(data, int_types)`,
then the base load (identity here). -/
def Integer.load : LoadFn := fun data =>
  if isAbsent data then .error requiredError
  else if !isIntInstance data then .error (invalidTypeError "integer")
  else .ok data

/-- `Integer.dump`: same checks as `Integer.load`, value passed through. -/
def Integer.dump : LoadFn := fun value =>
  if isAbsent value then .error requiredError
  else if !isIntInstance value then .error (invalidTypeError "integer")
  else .ok value

/-- `String.load`: required/None check, then string-kind check, data
returned unchanged. -/
def String.load : LoadFn := fun data =>
  if isAbsent data then .error requiredError
  else if !isStringInstance data then .error (invalidTypeError "string")
  else .ok data

/-- `String.dump`: required/None check, string-kind check, then
`str(value)` — the identity on values that passed the string check. -/
def String.dump : LoadFn := fun value =>
  if isAbsent value then .error requiredError
  else match value with
    | .str s => .ok (.str s)
    | _ => .error (invalidTypeError "string")

/-- `Boolean.load`: required/None check, then `isinstance(data, bool)`. -/
def Boolean.load : LoadFn := fun data =>
  if isAbsent data then .error requiredError
  else if !isBoolInstance data then .error (invalidTypeError "boolean")
  else .ok data

/-- `Boolean.dump`: required/None check, bool check, then `bool(value)` —
the identity on values that passed the bool check. -/
def Boolean.dump : LoadFn := fun value =>
  if isAbsent value then .error requiredError
  else match value with
    | .bool b => .ok (.bool b)
    | _ => .error (invalidTypeError "boolean")

/-- The three concrete scalar descriptors of claim C4. -/
inductive ScalarT where
  | integer
  | string
  | boolean
deriving DecidableEq

/-- The `load` method of each scalar descriptor. -/
def ScalarT.loadFn : ScalarT → LoadFn
  | .integer => Integer.load
  | .string => String.load
  | .boolean => Boolean.load

/-- The `dump` method of each scalar descriptor. -/
def ScalarT.dumpFn : ScalarT → LoadFn
  | .integer => Integer.dump
  | .string => String.dump
  | .boolean => Boolean.dump

/-- The primitive-kind membership test each scalar descriptor applies. -/
def ScalarT.instanceCheck : ScalarT → Value → Bool
  | .integer => isIntInstance
  | .string => isStringInstance
  | .boolean => isBoolInstance

/-- The `expected` parameter each scalar passes to the `invalid_type`
template. -/
def ScalarT.expected : ScalarT → String
  | .integer => "integer"
  | .string => "string"
  | .boolean => "boolean"

/-- The per-element loop of `List.load`: each element is loaded with the
child descriptor; a `ValidationError` is recorded in the aggregator under
the element's numeric index and iteration continues; any other exception
propagates.  Returns the converted items together with the recorded
(index, messages) pairs, in iteration order. -/
def loadItems (item_type : LoadFn) :
    List Value → Nat → Except PyErr (List Value × List (EKey × Messages))
  | [], _ => .ok ([], [])
  | item :: rest, idx =>
    match item_type item with
    | .ok loaded =>
      (loadItems item_type rest (idx + 1)).map
        (fun p => (loaded :: p.1, p.2))
    | .error (.validation messages) =>
      (loadItems item_type rest (idx + 1)).map
        (fun p => (p.1, (EKey.idx idx, messages) :: p.2))
    | .error e => .error e

/-- `List.load`: required/None check, `is_list` check, the per-element loop,
then `errors_builder.raise_errors()` and the base load (identity) on the
collected items. -/
def List.load (item_type : LoadFn) : LoadFn := fun data =>
  if isAbsent data then .error requiredError
  else match data with
    | .list items =>
      match loadItems item_type items 0 with
      | .error e => .error e
      | .ok (loaded, errs) =>
        if errs.isEmpty then .ok (.list loaded)
        else .error (.validation (.tree errs))
    | _ => .error (invalidTypeError "list")

/-- The per-element loop of `List.dump`, identical in shape to the load
loop but calling the child's `dump`. -/
def dumpItems (item_type_dump : LoadFn) :
    List Value → Nat → Except PyErr (List Value × List (EKey × Messages))
  | [], _ => .ok ([], [])
  | item :: rest, idx =>
    match item_type_dump item with
    | .ok dumped =>
      (dumpItems item_type_dump rest (idx + 1)).map
        (fun p => (dumped :: p.1, p.2))
    | .error (.validation messages) =>
      (dumpItems item_type_dump rest (idx + 1)).map
        (fun p => (p.1, (EKey.idx idx, messages) :: p.2))
    | .error e => .error e

/-- `List.dump`: mirrors `List.load` in the dump direction. -/
def List.dump (item_type_dump : LoadFn) : LoadFn := fun value =>
  if isAbsent value then .error requiredError
  else match value with
    | .list items =>
      match dumpItems item_type_dump items 0 with
      | .error e => .error e
      | .ok (dumped, errs) =>
        if errs.isEmpty then .ok (.list dumped)
        else .error (.validation (.tree errs))
    | _ => .error (invalidTypeError "list")

/-- `Tuple.load`: required/None check, `is_list` check, length check against
the arity, then the per-element loop.  The loop body is
`result.add(item_type.load(item))` where `result` is a Python list: the
callee `result.add` is evaluated before the argument, and a list has no
attribute `add`, so the very first iteration raises `AttributeError` —
before any element is loaded and outside the `except ValidationError`
handler.  Only a zero-length tuple descriptor reaches the success path,
returning the empty `result` list. -/
def Tuple.load (item_types : List LoadFn) : LoadFn := fun data =>
  if isAbsent data then .error requiredError
  else match data with
    | .list items =>
      if items.length ≠ item_types.length then
        .error (invalidLengthError item_types.length)
      else match items with
        | [] => .ok (.list [])
        | _ :: _ => .error (.attributeError "add")
    | _ => .error (invalidTypeError "list")

/-- `Tuple.dump`: after the required/None check the code evaluates
`is_list(data)`, but no local named `data` exists in `dump` (its parameter
is `value`), so a `NameError` is raised. -/
def Tuple.dump (item_types : List LoadFn) : LoadFn := fun value =>
  if isAbsent value then .error requiredError
  else .error (.nameError "data")

/-- `DictWithDefault.get` (which delegates to `__getitem__`): the explicit
entry for the key when present, else the stored default. -/
def DictWithDefault.get {α : Type} (values : List (String × α))
    (default : Option α) (key : String) : Option α :=
  match values.lookup key with
  | some t => some t
  | none => default

/-- The per-key loop of `Dict.load`: resolve each input key through the
key-to-type lookup; a key resolving to no type (`value_type is None`) is
skipped; a `ValidationError` from the child load is recorded under the key;
other exceptions propagate. -/
def Dict.loadEntries (value_types : List (String × LoadFn))
    (default : Option LoadFn) :
    List (String × Value) →
    Except PyErr (List (String × Value) × List (EKey × Messages))
  | [] => .ok ([], [])
  | (k, v) :: rest =>
    match DictWithDefault.get value_types default k with
    | none => Dict.loadEntries value_types default rest
    | some value_type =>
      match value_type v with
      | .ok loaded =>
        (Dict.loadEntries value_types default rest).map
          (fun p => ((k, loaded) :: p.1, p.2))
      | .error (.validation messages) =>
        (Dict.loadEntries value_types default rest).map
          (fun p => (p.1, (EKey.name k, messages) :: p.2))
      | .error e => .error e

/-- `Dict.load`: required/None check, `is_dict` check, the per-key loop,
`raise_errors`, then the base load (identity) on the result mapping.  The
`value_types` / `default` pair is the `DictWithDefault` the constructor
stores (a bare child `Type` becomes `DictWithDefault(default=value_type)`). -/
def Dict.load (value_types : List (String × LoadFn))
    (default : Option LoadFn) : LoadFn := fun data =>
  if isAbsent data then .error requiredError
  else match data with
    | .dict entries =>
      match Dict.loadEntries value_types default entries with
      | .error e => .error e
      | .ok (result, errs) =>
        if errs.isEmpty then .ok (.dict result)
        else .error (.validation (.tree errs))
    | _ => .error (invalidTypeError "dict")

/-- A `Field` instance as `Object` uses it: its `load(name, data)` and
`dump(name, obj)` methods. -/
structure FieldS where
  load : String → Value → Except PyErr Value
  dump : String → Value → Except PyErr Value

/-- `data.get(name, MISSING)` as called by `AttributeField.load`;
`Object.load` has already checked `is_dict(data)`, so the non-dict branch is
unreachable in context. -/
def pyDictGet (data : Value) (name : String) : Value :=
  match data with
  | .dict entries => (entries.lookup name).getD .missing
  | _ => .missing

/-- `getattr(obj, name, MISSING)`: the named attribute of a plain object,
MISSING when absent.  Values of other shapes carry no user attributes in
this model. -/
def getattr (obj : Value) (name : String) : Value :=
  match obj with
  | .record attrs => (attrs.lookup name).getD .missing
  | _ => .missing

/-- `AttributeField`: dump reads `getattr(obj, self.attribute or name,
MISSING)` and feeds it to the field's type; load reads
`data.get(name, MISSING)` and feeds it to the field's type. -/
def AttributeField (field_type_load field_type_dump : LoadFn)
    (attr : Option String) : FieldS where
  load := fun name data => field_type_load (pyDictGet data name)
  dump := fun name obj => field_type_dump (getattr obj (attr.getD name))

/-- `ConstantField`: dump feeds the configured constant to the field's type;
load is the base `Field.load`, which returns MISSING. -/
def ConstantField (field_type_dump : LoadFn) (value : Value) : FieldS where
  load := fun _ _ => .ok .missing
  dump := fun _ _ => field_type_dump value

/-- The per-field loop of `Object.load`: call each declared field's `load`;
a result equal to MISSING contributes nothing; a `ValidationError` is
recorded under the field's name and iteration continues; other exceptions
propagate.  Returns the assembled (name, value) pairs and the recorded
errors, in declaration order. -/
def Object.loadFields (data : Value) :
    List (String × FieldS) →
    Except PyErr (List (String × Value) × List (EKey × Messages))
  | [] => .ok ([], [])
  | (name, field) :: rest =>
    match field.load name data with
    | .ok loaded =>
      (Object.loadFields data rest).map
        (fun p => (if loaded.isMissing then p.1 else (name, loaded) :: p.1, p.2))
    | .error (.validation messages) =>
      (Object.loadFields data rest).map
        (fun p => (p.1, (EKey.name name, messages) :: p.2))
    | .error e => .error e

/-- The extra-fields pass of `Object.load`: when extra fields are
disallowed, every input key absent from the declared field set is recorded
under that key with the `unknown` template (`'Unknown field'`). -/
def Object.unknownErrors (fields : List (String × FieldS))
    (data_keys : List String) : List (EKey × Messages) :=
  data_keys.filterMap (fun name =>
    if (fields.lookup name).isSome then none
    else some (EKey.name name, Messages.msg "Unknown field"))

/-- The constructor callable of an `Object` descriptor, invoked with the
loaded field mapping as keyword arguments: the default `dict` builds a plain
mapping, `record` models a constructor producing an object whose attributes
are the keyword arguments. -/
inductive Ctor where
  | dict
  | record

/-- Invoke the constructor on the assembled keyword arguments. -/
def applyCtor : Ctor → List (String × Value) → Value
  | .dict, result => .dict result
  | .record, result => .record result

/-- `Object.load`: required/None check, `is_dict` check, the per-field
loop, then (when extra fields are disallowed) the unknown-key pass, then
`raise_errors`, and finally `constructor(**result)` after the base load
(identity). -/
def Object.load (fields : List (String × FieldS))
    (allow_extra_fields : Bool) (constructor : Ctor) : LoadFn := fun data =>
  if isAbsent data then .error requiredError
  else match data with
    | .dict entries =>
      match Object.loadFields (.dict entries) fields with
      | .error e => .error e
      | .ok (result, errs) =>
        let errs' := errs ++
          (if allow_extra_fields then []
           else Object.unknownErrors fields (entries.map Prod.fst))
        if errs'.isEmpty then .ok (applyCtor constructor result)
        else .error (.validation (.tree errs'))
    | _ => .error (invalidTypeError "dict")

/-- The per-field loop of `Object.dump`: call each declared field's `dump`;
a result equal to MISSING contributes nothing; when a field raises a
`ValidationError` the handler executes `errors_builder.add_error(k, ...)`,
but no local named `k` exists in `dump`, so a `NameError` is raised instead
of recording the failure; other exceptions propagate.  Consequently the
aggregator stays empty whenever the loop completes, and the final
`raise_errors` never fires. -/
def Object.dumpFields (obj : Value) :
    List (String × FieldS) → Except PyErr (List (String × Value))
  | [] => .ok []
  | (name, field) :: rest =>
    match field.dump name obj with
    | .ok dumped =>
      (Object.dumpFields obj rest).map
        (fun res => if dumped.isMissing then res else (name, dumped) :: res)
    | .error (.validation _) => .error (.nameError "k")
    | .error e => .error e

/-- `Object.dump`: required/None check, the per-field loop, then the base
dump (identity) on the assembled mapping. -/
def Object.dump (fields : List (String × FieldS)) : LoadFn := fun obj =>
  if isAbsent obj then .error requiredError
  else match Object.dumpFields obj fields with
    | .error e => .error e
    | .ok result => .ok (.dict result)

/-
  A stateful model of `DictWithDefault` construction, for the shared
  mutable-default defect.  In Python, the default expression `{}` of the
  `values` parameter of `DictWithDefault.__init__` is evaluated once, when
  the function is defined; every construction that omits `values` binds the
  very same dict object.  We model dict objects as addresses into a store of
  cells; address 0 holds that single module-level default dict, initially
  empty.
-/

/-- The heap of dict objects backing `DictWithDefault` instances; the cell
at address 0 is the shared default `{}`. -/
structure DWDStore (α : Type) where
  cells : List (List (String × α))

/-- The store at module-import time: only the shared default dict, empty. -/
def initStore (α : Type) : DWDStore α := ⟨[[]]⟩

/-- A `DictWithDefault` instance: a reference to its `values` dict and its
`default`. -/
structure DWDRef (α : Type) where
  valuesAddr : Nat
  default : Option α

/-- `DictWithDefault.__init__` called without a `values` argument (as
`Dict.__init__` does via `DictWithDefault(default=value_type)`): the new
instance aliases the shared default dict at address 0. -/
def DWDRef.mkDefault {α : Type} (st : DWDStore α) (default : Option α) :
    DWDRef α × DWDStore α :=
  (⟨0, default⟩, st)

/-- `DictWithDefault.__init__` called with an explicit `values` argument:
the instance references that (freshly allocated) dict. -/
def DWDRef.mkWith {α : Type} (st : DWDStore α)
    (values : List (String × α)) (default : Option α) :
    DWDRef α × DWDStore α :=
  (⟨st.cells.length, default⟩, ⟨st.cells ++ [values]⟩)

/-- Read the dict cell an instance's `values` attribute refers to. -/
def DWDStore.read {α : Type} (st : DWDStore α) (addr : Nat) :
    List (String × α) :=
  (st.cells.get? addr).getD []

/-- Python dict assignment `d[key] = value` on an assoc-list cell. -/
def assocSet {α : Type} (cell : List (String × α)) (key : String) (v : α) :
    List (String × α) :=
  if (cell.lookup key).isSome then
    cell.map (fun p => if p.1 = key then (key, v) else p)
  else cell ++ [(key, v)]

/-- `DictWithDefault.__setitem__`: `self.values[key] = value`, mutating the
referenced cell in place. -/
def DWDRef.setItem {α : Type} (st : DWDStore α) (d : DWDRef α)
    (key : String) (v : α) : DWDStore α :=
  ⟨st.cells.set d.valuesAddr (assocSet (st.read d.valuesAddr) key v)⟩

/-- `DictWithDefault.__getitem__` against the store: the explicit entry in
the referenced cell when present, else the instance's default. -/
def DWDRef.getItem {α : Type} (st : DWDStore α) (d : DWDRef α)
    (key : String) : Option α :=
  match (st.read d.valuesAddr).lookup key with
  | some v => some v
  | none => d.default

/-- The items a `List.load` pass converts successfully (specification
companion of `loadItems`). -/
def loadedItems (item_type : LoadFn) : List Value → List Value
  | [] => []
  | v :: rest =>
    match item_type v with
    | .ok w => w :: loadedItems item_type rest
    | .error _ => loadedItems item_type rest

/-- The (index, messages) pairs a `List.load` pass records, starting from
index `idx`: one entry per element whose load raises a `ValidationError`,
in element order (specification companion of `loadItems`). -/
def elementErrorsFrom (item_type : LoadFn) : Nat → List Value → List (EKey × Messages)
  | _, [] => []
  | idx, v :: rest =>
    match item_type v with
    | .error (.validation m) =>
      (EKey.idx idx, m) :: elementErrorsFrom item_type (idx + 1) rest
    | _ => elementErrorsFrom item_type (idx + 1) rest

/-- The output mapping of a fully successful `Dict.load` pass: exactly the
input keys that resolve to a child type and convert successfully, with their
converted values, in input order (specification companion of
`Dict.loadEntries`). -/
def dictLoadedEntries (value_types : List (String × LoadFn))
    (default : Option LoadFn) : List (String × Value) → List (String × Value)
  | [] => []
  | (k, v) :: rest =>
    match DictWithDefault.get value_types default k with
    | none => dictLoadedEntries value_types default rest
    | some t =>
      match t v with
      | .ok w => (k, w) :: dictLoadedEntries value_types default rest
      | .error _ => dictLoadedEntries value_types default rest

/-- An `Object` field table built purely from attribute fields (the
auto-wrapping `Object.__init__` applies to bare types), one scalar child
type per field, with no attribute-name override. -/
def mkAttrFields (fs : List (String × ScalarT)) : List (String × FieldS) :=
  fs.map (fun p => (p.1, AttributeField p.2.loadFn p.2.dumpFn none))

/-- A record is valid for a field table when its attributes line up with
the declared fields one for one: same name at every position and a value of
the declared scalar kind. -/
def validFor (attrs : List (String × Value)) (fs : List (String × ScalarT)) : Prop :=
  List.Forall₂ (fun av p => av.1 = p.1 ∧ p.2.instanceCheck av.2 = true) attrs fs

/-- Claim C4: for every concrete scalar type T in {Integer, String,
Boolean} and every value v, `T.load(v)` raises kind `required` iff v is
MISSING or None; raises kind `invalid_type` (with T's `expected` name) iff
v is neither MISSING nor None and not of T's primitive kind; and succeeds,
returning v unchanged, exactly otherwise. -/
theorem scalar_load_trichotomy (t : ScalarT) (v : Value) :
    (t.loadFn v = .error requiredError ↔ isAbsent v = true) ∧
    (t.loadFn v = .error (invalidTypeError t.expected) ↔
      (isAbsent v = false ∧ t.instanceCheck v = false)) ∧
    (t.loadFn v = .ok v ↔ (isAbsent v = false ∧ t.instanceCheck v = true)) := by
  cases t <;> cases v <;>
    simp [ScalarT.loadFn, ScalarT.instanceCheck, ScalarT.expected,
      Integer.load, String.load, Boolean.load, isAbsent, isIntInstance,
      isStringInstance, isBoolInstance, requiredError, invalidTypeError]

/-- Claim C10: booleans pass the integer-kind membership test, so
`Integer.load` and `Integer.dump` accept either boolean unchanged, while
`Boolean.load` rejects every non-boolean integer with `invalid_type`. -/
theorem integer_accepts_booleans (b : Bool) (n : Int) :
    Integer.load (.bool b) = .ok (.bool b) ∧
    Integer.dump (.bool b) = .ok (.bool b) ∧
    Boolean.load (.int n) = .error (invalidTypeError "boolean") :=
  ⟨rfl, rfl, rfl⟩

/-- Claim C1 (refuted on the code): `validate` is not exception-free.  On a
`Tuple` descriptor whose element loop is exercised, `load` raises
`AttributeError` (`result.add` on a Python list), which is not a
`ValidationError` and therefore escapes `validate` instead of being turned
into an error mapping. -/
theorem validate_tuple_raises_attribute_error :
    validate (Tuple.load [Integer.load]) (.list [.int 1]) =
      .error (.attributeError "add") := rfl

/-- Claim C2 (refuted on the code): on a well-formed input of matching
length, `Tuple.load` raises `AttributeError` on the first loop iteration
(the callee `result.add` is looked up before the element is loaded), so
elements are neither converted nor their failures aggregated. -/
theorem tuple_load_raises_attribute_error :
    Tuple.load [Integer.load, Integer.load] (.list [.int 2, .int 3]) =
      .error (.attributeError "add") := rfl

/-- Claim C3 (refuted on the code): when a field's dump raises a validation
failure, `Object.dump`'s handler calls `errors_builder.add_error(k, ...)`
with an undefined name `k`, so a `NameError` escapes instead of the failure
being recorded under the field's name: here field "x" reads MISSING off the
source object and `Integer.dump` fails with `required`. -/
theorem object_dump_raises_name_error :
    Object.dump [("x", AttributeField Integer.load Integer.dump none)]
      (.record []) = .error (.nameError "k") := rfl

/-- Claim C6 (refuted on the code): two `DictWithDefault` instances built
the way `Dict.__init__` builds them (no explicit `values` argument) alias
the single dict created for the mutable default parameter `values={}`, so a
key-to-type entry added through one instance changes the lookups observed
through the other: before the assignment the second instance resolves "a"
to its own default, afterwards to the type stored through the first. -/
theorem dict_with_default_shares_state :
    (DWDRef.getItem (initStore String)
        (DWDRef.mkDefault (initStore String) (some "String")).1 "a" =
      some "String") ∧
    (DWDRef.getItem
        (DWDRef.setItem (initStore String)
          (DWDRef.mkDefault (initStore String) (some "Integer")).1 "a" "Boolean")
        (DWDRef.mkDefault (initStore String) (some "String")).1 "a" =
      some "Boolean") :=
  ⟨rfl, rfl⟩

/-- When every element load either succeeds or raises a `ValidationError`,
the element loop returns all converted items together with one recorded
error per failing index. -/
theorem loadItems_eq (item_type : LoadFn) :
    ∀ (items : List Value),
      (∀ v ∈ items, (∃ w, item_type v = .ok w) ∨
        (∃ m, item_type v = .error (.validation m))) →
      ∀ idx, loadItems item_type items idx =
        .ok (loadedItems item_type items, elementErrorsFrom item_type idx items) := by
  intro items
  induction items with
  | nil => intro _ idx; rfl
  | cons v rest ih =>
    intro h idx
    have hrest := fun u hu => h u (List.mem_cons_of_mem _ hu)
    rcases h v (List.mem_cons_self _ _) with ⟨w, hw⟩ | ⟨m, hm⟩
    · simp [loadItems, loadedItems, elementErrorsFrom, Except.map, hw, ih hrest]
    · simp [loadItems, loadedItems, elementErrorsFrom, Except.map, hm, ih hrest]

/-- Claim C5: for every List descriptor and every list input, provided each
element load either succeeds or raises a validation failure, if at least
one element fails validation then `List.load` raises one aggregated tree
holding exactly the per-index errors of all failing elements — an error
under the numeric index of every failing element, later indices included. -/
theorem list_load_aggregates_all_element_errors (item_type : LoadFn)
    (items : List Value)
    (h : ∀ v ∈ items, (∃ w, item_type v = .ok w) ∨
      (∃ m, item_type v = .error (.validation m)))
    (hfail : elementErrorsFrom item_type 0 items ≠ []) :
    List.load item_type (.list items) =
      .error (.validation (.tree (elementErrorsFrom item_type 0 items))) := by
  simp [List.load, isAbsent, loadItems_eq item_type items h 0,
    List.isEmpty_eq_true, hfail]

/-- Witness for C5: a List of Integer over `[1, "x", 3, "y"]` reports
errors at index 1 and index 3 in one tree. -/
theorem list_load_aggregates_witness :
    List.load Integer.load (.list [.int 1, .str "x", .int 3, .str "y"]) =
      .error (.validation (.tree
        [(.idx 1, .msg "Value should be integer"),
         (.idx 3, .msg "Value should be integer")])) := by
  have h : ∀ v ∈ [Value.int 1, Value.str "x", Value.int 3, Value.str "y"],
      (∃ w, Integer.load v = .ok w) ∨
        (∃ m, Integer.load v = .error (.validation m)) := by
    intro v hv
    simp only [List.mem_cons, List.not_mem_nil, or_false] at hv
    rcases hv with rfl | rfl | rfl | rfl
    · exact Or.inl ⟨_, rfl⟩
    · exact Or.inr ⟨_, rfl⟩
    · exact Or.inl ⟨_, rfl⟩
    · exact Or.inr ⟨_, rfl⟩
  exact list_load_aggregates_all_element_errors Integer.load _ h
    (List.cons_ne_nil _ _)

/-- When every resolvable key's load succeeds, the `Dict.load` key loop
returns the loaded entries and records no error. -/
theorem dictLoadEntries_eq (value_types : List (String × LoadFn))
    (default : Option LoadFn) :
    ∀ (entries : List (String × Value)),
      (∀ p ∈ entries, ∀ t, DictWithDefault.get value_types default p.1 = some t →
        ∃ w, t p.2 = .ok w) →
      Dict.loadEntries value_types default entries =
        .ok (dictLoadedEntries value_types default entries, []) := by
  intro entries
  induction entries with
  | nil => intro _; rfl
  | cons p rest ih =>
    intro h
    obtain ⟨k, v⟩ := p
    have hrest := fun q hq t ht => h q (List.mem_cons_of_mem _ hq) t ht
    cases hget : DictWithDefault.get value_types default k with
    | none => simp [Dict.loadEntries, dictLoadedEntries, hget, ih hrest]
    | some t =>
      obtain ⟨w, hw⟩ := h (k, v) (List.mem_cons_self _ _) t hget
      simp [Dict.loadEntries, dictLoadedEntries, Except.map, hget, hw, ih hrest]

/-- A key that resolves to no child type never reaches the output mapping. -/
theorem dictLoadedEntries_skips (value_types : List (String × LoadFn))
    (default : Option LoadFn) (k : String)
    (hk : DictWithDefault.get value_types default k = none) :
    ∀ entries, k ∉ (dictLoadedEntries value_types default entries).map Prod.fst := by
  intro entries
  induction entries with
  | nil => simp [dictLoadedEntries]
  | cons p rest ih =>
    obtain ⟨k', v⟩ := p
    cases hget : DictWithDefault.get value_types default k' with
    | none => simpa [dictLoadedEntries, hget] using ih
    | some t =>
      cases hw : t v with
      | ok w =>
        simp only [dictLoadedEntries, hget, hw, List.map_cons, List.mem_cons]
        rintro (rfl | hmem)
        · rw [hget] at hk; cases hk
        · exact ih hmem
      | error e => simpa [dictLoadedEntries, hget, hw] using ih

/-- Claim C9: for every Dict descriptor and every mapping input whose
resolvable keys all convert successfully, `Dict.load` succeeds and returns
exactly the keys that resolved to a child type with their converted values;
a key resolving to no type (no explicit entry, no fallback default) appears
neither in the output nor as an error. -/
theorem dict_load_skips_unresolved_keys (value_types : List (String × LoadFn))
    (default : Option LoadFn) (entries : List (String × Value))
    (h : ∀ p ∈ entries, ∀ t, DictWithDefault.get value_types default p.1 = some t →
      ∃ w, t p.2 = .ok w) :
    Dict.load value_types default (.dict entries) =
      .ok (.dict (dictLoadedEntries value_types default entries)) ∧
    ∀ p ∈ entries, DictWithDefault.get value_types default p.1 = none →
      p.1 ∉ (dictLoadedEntries value_types default entries).map Prod.fst := by
  constructor
  · simp [Dict.load, isAbsent, dictLoadEntries_eq value_types default entries h]
  · intro p _ hp
    exact dictLoadedEntries_skips value_types default p.1 hp entries

/-- Witness for C9: a schema mapping only "a" with no default over
`{"a": 1, "b": 2}` yields `{"a": 1}`, silently dropping "b". -/
theorem dict_load_skips_witness :
    Dict.load [("a", Any.load)] none (.dict [("a", .int 1), ("b", .int 2)]) =
      .ok (.dict [("a", .int 1)]) := by
  have h : ∀ p ∈ [("a", Value.int 1), ("b", Value.int 2)], ∀ t,
      DictWithDefault.get [("a", Any.load)] none p.1 = some t →
      ∃ w, t p.2 = .ok w := by
    intro p hp t ht
    simp only [List.mem_cons, List.not_mem_nil, or_false] at hp
    rcases hp with rfl | rfl
    · injection ht with ht'
      subst ht'
      exact ⟨_, rfl⟩
    · exact Option.noConfusion ht
  exact (dict_load_skips_unresolved_keys [("a", Any.load)] none
    [("a", .int 1), ("b", .int 2)] h).1

/-- Extending an assoc list preserves a successful lookup. -/
theorem lookup_isSome_cons {β : Type} (a : String) (b : β)
    (xs : List (String × β)) (k : String) (h : (xs.lookup k).isSome) :
    (((a, b) :: xs).lookup k).isSome := by
  cases h' : (k == a) <;> simp [List.lookup, h', h]

/-- Every error the field loop of `Object.load` records is keyed by the
name of one of the declared fields. -/
theorem loadFields_error_keys (data : Value) :
    ∀ (fields : List (String × FieldS)) (result : List (String × Value))
      (errs : List (EKey × Messages)),
      Object.loadFields data fields = .ok (result, errs) →
      ∀ p ∈ errs, ∃ n, p.1 = EKey.name n ∧ (fields.lookup n).isSome := by
  intro fields
  induction fields with
  | nil =>
    intro result errs h p hp
    simp only [Object.loadFields, Except.ok.injEq, Prod.mk.injEq] at h
    obtain ⟨-, h2⟩ := h
    subst h2
    cases hp
  | cons nf rest ih =>
    obtain ⟨name, f⟩ := nf
    intro result errs h p hp
    simp only [Object.loadFields] at h
    cases hl : f.load name data with
    | ok loaded =>
      rw [hl] at h
      cases hrec : Object.loadFields data rest with
      | error e => rw [hrec] at h; simp [Except.map] at h
      | ok pr =>
        obtain ⟨r', e'⟩ := pr
        rw [hrec] at h
        simp only [Except.map, Except.ok.injEq, Prod.mk.injEq] at h
        obtain ⟨-, h2⟩ := h
        subst h2
        obtain ⟨n, hn, hsome⟩ := ih r' e' hrec p hp
        exact ⟨n, hn, lookup_isSome_cons name f rest n hsome⟩
    | error e =>
      cases e with
      | validation m =>
        rw [hl] at h
        cases hrec : Object.loadFields data rest with
        | error e' => rw [hrec] at h; simp [Except.map] at h
        | ok pr =>
          obtain ⟨r', e'⟩ := pr
          rw [hrec] at h
          simp only [Except.map, Except.ok.injEq, Prod.mk.injEq] at h
          obtain ⟨-, h2⟩ := h
          subst h2
          rcases List.mem_cons.mp hp with rfl | hp'
          · exact ⟨name, rfl, by simp [List.lookup]⟩
          · obtain ⟨n, hn, hsome⟩ := ih r' e' hrec p hp'
            exact ⟨n, hn, lookup_isSome_cons name f rest n hsome⟩
      | attributeError s => rw [hl] at h; simp at h
      | nameError s => rw [hl] at h; simp at h
      | valueError s => rw [hl] at h; simp at h

/-- A present input key that matches no declared field contributes an
`unknown` entry to the extra-fields pass. -/
theorem mem_unknownErrors (fields : List (String × FieldS))
    (data_keys : List String) (k : String) (hk : k ∈ data_keys)
    (hnot : fields.lookup k = none) :
    (EKey.name k, Messages.msg "Unknown field") ∈
      Object.unknownErrors fields data_keys := by
  apply List.mem_filterMap.mpr
  exact ⟨k, hk, by simp [hnot]⟩

/-- Claim C8: with `allow_extra_fields=False`, `Object.load` records an
`unknown` error under each input key that names no declared field and
raises the aggregated tree (the field loop's own errors followed by one
`unknown` entry per extra key); with `allow_extra_fields=True`, every key
of a raised tree is a declared field name, so extra keys produce no error. -/
theorem object_load_unknown_fields
    (fields : List (String × FieldS)) (constructor : Ctor)
    (entries : List (String × Value))
    (result : List (String × Value)) (ferrs : List (EKey × Messages))
    (hfields : Object.loadFields (.dict entries) fields = .ok (result, ferrs))
    (k : String) (hk : k ∈ entries.map Prod.fst)
    (hnot : fields.lookup k = none) :
    (Object.load fields false constructor (.dict entries) =
        .error (.validation (.tree
          (ferrs ++ Object.unknownErrors fields (entries.map Prod.fst)))) ∧
      (EKey.name k, Messages.msg "Unknown field") ∈
        Object.unknownErrors fields (entries.map Prod.fst)) ∧
    (∀ errs, Object.load fields true constructor (.dict entries) =
        .error (.validation (.tree errs)) →
      ∀ p ∈ errs, ∃ n, p.1 = EKey.name n ∧ (fields.lookup n).isSome) := by
  have hmem := mem_unknownErrors fields (entries.map Prod.fst) k hk hnot
  constructor
  · constructor
    · have hne : ferrs ++ Object.unknownErrors fields (entries.map Prod.fst) ≠ [] :=
        fun hcon => by
          have := List.ne_nil_of_mem (List.mem_append_right ferrs hmem)
          exact this hcon
      simp [Object.load, isAbsent, hfields, List.isEmpty_eq_true, hne]
    · exact hmem
  · intro errs herrs p hp
    by_cases hfe : ferrs = []
    · subst hfe
      simp [Object.load, isAbsent, hfields] at herrs
    · have herrs' : errs = ferrs := by
        simp [Object.load, isAbsent, hfields, List.isEmpty_eq_true, hfe] at herrs
        exact herrs.symm
      rw [← herrs'] at hfields
      exact loadFields_error_keys (.dict entries) fields result errs hfields p hp

/-- Witness for C8: fields `{"x": Integer()}` with extra fields disallowed
over `{"x": 1, "y": 2}` raise with an `unknown` error keyed "y". -/
theorem object_load_unknown_fields_witness :
    Object.load [("x", AttributeField Integer.load Integer.dump none)]
      false .dict (.dict [("x", .int 1), ("y", .int 2)]) =
      .error (.validation (.tree [(.name "y", .msg "Unknown field")])) :=
  (object_load_unknown_fields
    [("x", AttributeField Integer.load Integer.dump none)] .dict
    [("x", .int 1), ("y", .int 2)] [("x", .int 1)] [] rfl "y"
    (by simp) rfl).1.1

/-- A value of a scalar's primitive kind is dumped and loaded unchanged,
and is never the MISSING sentinel. -/
theorem scalar_identity_of_instanceCheck (t : ScalarT) (v : Value)
    (h : t.instanceCheck v = true) :
    t.dumpFn v = .ok v ∧ t.loadFn v = .ok v ∧ v.isMissing = false := by
  cases t <;> cases v <;>
    simp_all [ScalarT.instanceCheck, ScalarT.dumpFn, ScalarT.loadFn,
      Integer.load, Integer.dump, String.load, String.dump, Boolean.load,
      Boolean.dump, isAbsent, isIntInstance, isStringInstance,
      isBoolInstance, Value.isMissing]

/-- In an assoc list with pairwise distinct keys, every member is found by
looking up its own key. -/
theorem lookup_of_nodup (attrs : List (String × Value))
    (hnd : (attrs.map Prod.fst).Nodup) :
    ∀ p ∈ attrs, attrs.lookup p.1 = some p.2 := by
  induction attrs with
  | nil => intro p hp; cases hp
  | cons q rest ih =>
    obtain ⟨a, b⟩ := q
    simp only [List.map_cons, List.nodup_cons] at hnd
    obtain ⟨hna, hnd'⟩ := hnd
    intro p hp
    rcases List.mem_cons.mp hp with rfl | hp'
    · simp [List.lookup]
    · have hne : p.1 ≠ a := fun hcon =>
        hna (hcon ▸ List.mem_map.mpr ⟨p, hp', rfl⟩)
      have hbeq : (p.1 == a) = false := beq_eq_false_iff_ne.mpr hne
      simp [List.lookup, hbeq, ih hnd' p hp']

/-- The field loop of `Object.dump` over attribute fields reproduces a
record's aligned attributes exactly. -/
theorem dumpFields_valid (whole : List (String × Value)) :
    ∀ (attrs : List (String × Value)) (fs : List (String × ScalarT)),
      validFor attrs fs →
      (∀ p ∈ attrs, whole.lookup p.1 = some p.2) →
      Object.dumpFields (.record whole) (mkAttrFields fs) = .ok attrs := by
  intro attrs fs hv
  induction hv with
  | nil => intro _; rfl
  | @cons av p l₁ l₂ hpq _ ih =>
    intro hlook
    obtain ⟨hname, hcheck⟩ := hpq
    obtain ⟨hd, -, hm⟩ := scalar_identity_of_instanceCheck p.2 av.2 hcheck
    have hwl : whole.lookup p.1 = some av.2 := by
      rw [← hname]; exact hlook av (List.mem_cons_self _ _)
    have hrest := fun q hq => hlook q (List.mem_cons_of_mem _ hq)
    have hstep : (AttributeField p.2.loadFn p.2.dumpFn none).dump p.1
        (.record whole) = .ok av.2 := by
      simp [AttributeField, getattr, hwl, hd]
    rw [show mkAttrFields ((p.1, p.2) :: l₂) =
        (p.1, AttributeField p.2.loadFn p.2.dumpFn none) :: mkAttrFields l₂
      from rfl]
    simp only [Object.dumpFields]
    rw [hstep, ih hrest]
    simp [Except.map, hm, ← hname]

/-- The field loop of `Object.load` over attribute fields reads the aligned
attributes back out of the dumped mapping, recording no error. -/
theorem loadFields_valid (whole : List (String × Value)) :
    ∀ (attrs : List (String × Value)) (fs : List (String × ScalarT)),
      validFor attrs fs →
      (∀ p ∈ attrs, whole.lookup p.1 = some p.2) →
      Object.loadFields (.dict whole) (mkAttrFields fs) = .ok (attrs, []) := by
  intro attrs fs hv
  induction hv with
  | nil => intro _; rfl
  | @cons av p l₁ l₂ hpq _ ih =>
    intro hlook
    obtain ⟨hname, hcheck⟩ := hpq
    obtain ⟨-, hl, hm⟩ := scalar_identity_of_instanceCheck p.2 av.2 hcheck
    have hwl : whole.lookup p.1 = some av.2 := by
      rw [← hname]; exact hlook av (List.mem_cons_self _ _)
    have hrest := fun q hq => hlook q (List.mem_cons_of_mem _ hq)
    have hstep : (AttributeField p.2.loadFn p.2.dumpFn none).load p.1
        (.dict whole) = .ok av.2 := by
      simp [AttributeField, pyDictGet, hwl, hl]
    rw [show mkAttrFields ((p.1, p.2) :: l₂) =
        (p.1, AttributeField p.2.loadFn p.2.dumpFn none) :: mkAttrFields l₂
      from rfl]
    simp only [Object.loadFields]
    rw [hstep, ih hrest]
    simp [Except.map, hm, ← hname]

/-- Claim C7: for an Object schema built only from attribute fields with
symmetric names and scalar types, and a valid record (attributes aligned
one for one with the fields, values of the declared kinds, distinct names),
dumping and then loading with a symmetric record constructor reconstructs
the record: `S.load(S.dump(r)) == r`. -/
theorem object_attribute_roundtrip (fs : List (String × ScalarT))
    (attrs : List (String × Value)) (hv : validFor attrs fs)
    (hnd : (attrs.map Prod.fst).Nodup) :
    (Object.dump (mkAttrFields fs) (.record attrs)).bind
      (Object.load (mkAttrFields fs) true .record) = .ok (.record attrs) := by
  have hlook := lookup_of_nodup attrs hnd
  have hdump := dumpFields_valid attrs attrs fs hv hlook
  have hload := loadFields_valid attrs attrs fs hv hlook
  simp [Object.dump, Object.load, isAbsent, hdump, hload, Except.bind,
    applyCtor]

/-- Witness for C7: the schema `{"id": Integer(), "name": String()}` round
trips the record with attributes `id=7`, `name="ada"`. -/
theorem object_attribute_roundtrip_witness :
    (Object.dump (mkAttrFields [("id", .integer), ("name", .string)])
        (.record [("id", .int 7), ("name", .str "ada")])).bind
      (Object.load (mkAttrFields [("id", .integer), ("name", .string)])
        true .record) =
      .ok (.record [("id", .int 7), ("name", .str "ada")]) :=
  object_attribute_roundtrip [("id", .integer), ("name", .string)]
    [("id", .int 7), ("name", .str "ada")]
    (List.Forall₂.cons ⟨rfl, rfl⟩ (List.Forall₂.cons ⟨rfl, rfl⟩ List.Forall₂.nil))
    (by simp)

end Zephyr
